import Mathlib

/-!
Verification development for the memento backend's consent-gated facial
recognition core.

The definitions below are a shallow embedding of:
  * `src/backend/app/services/rekognition.py`  (RekognitionService, decode_base64_image)
  * `src/backend/app/api/recognition.py`       (the recognition HTTP endpoints)
  * `src/backend/app/dals/consent_dal.py`      (ConsentDAL.update / grant_all / revoke_all)
  * `src/backend/lambdas/event_indexer/handler.py` (the reconciliation run `_run`)

The remote AWS Rekognition backend (a boto3 client) is modelled as a record of
oracle functions: a successful boto3 call is `.ok payload`, and a
`botocore.exceptions.ClientError` whose `e.response["Error"]["Code"]` is `code`
is `.error code`.  Image bytes are `List Nat`; timestamps and wall-clock
durations are rationals.
-/

set_option autoImplicit false

namespace Memento

/-- Result of one boto3 client call: success, or a `ClientError` carrying the
AWS error code (`e.response["Error"]["Code"]`). -/
abbrev BotoResponse (α : Type) := Except String α

instance {ε α : Type} [DecidableEq ε] [DecidableEq α] : DecidableEq (Except ε α) := fun x y =>
  match x, y with
  | .ok a, .ok b =>
    if h : a = b then .isTrue (congrArg Except.ok h)
    else .isFalse (fun hh => h (Except.ok.inj hh))
  | .error a, .error b =>
    if h : a = b then .isTrue (congrArg Except.error h)
    else .isFalse (fun hh => h (Except.error.inj hh))
  | .ok _, .error _ => .isFalse (fun hh => Except.noConfusion hh)
  | .error _, .ok _ => .isFalse (fun hh => Except.noConfusion hh)

/-- The Python exception taxonomy raised by `services/rekognition.py`.
`clientError` is a raw, unwrapped `botocore.exceptions.ClientError` escaping a
code path that does not wrap it; the other three constructors are
`RekognitionError` and its two subclasses. -/
inductive PyError where
  | clientError (code : String)
  | rekognitionError (msg : String)
  | faceNotFoundError (msg : String)
  | collectionNotFoundError (msg : String)
  deriving DecidableEq

/-- Python `isinstance(e, RekognitionError)`: `FaceNotFoundError` and
`CollectionNotFoundError` are subclasses of `RekognitionError`; a raw
`ClientError` is not a `RekognitionError`. -/
def PyError.isRekognitionError : PyError → Bool
  | .clientError _ => false
  | .rekognitionError _ => true
  | .faceNotFoundError _ => true
  | .collectionNotFoundError _ => true

/-- `str(e)` payload used when building HTTP error details. -/
def PyError.message : PyError → String
  | .clientError code => code
  | .rekognitionError m => m
  | .faceNotFoundError m => m
  | .collectionNotFoundError m => m

/-- AWS bounding box (`Width`/`Height`/`Left`/`Top`, unit-interval fractions). -/
structure AwsBoundingBox where
  width : Rat
  height : Rat
  left : Rat
  top : Rat
  deriving DecidableEq

/-- A face record held by (or returned from) the Rekognition collection:
the `Face` dict with `FaceId`, optional `ExternalImageId`, `Confidence`
and optional `BoundingBox`. -/
structure AwsFace where
  faceId : String
  externalImageId : Option String
  confidence : Rat
  boundingBox : Option AwsBoundingBox
  deriving DecidableEq

/-- One element of the `FaceMatches` list returned by
`search_faces_by_image`: a `Similarity` score and the matched `Face`. -/
structure AwsFaceMatch where
  similarity : Rat
  face : AwsFace
  deriving DecidableEq

/-- One element of the `FaceDetails` list returned by `detect_faces`. -/
structure AwsFaceDetail where
  boundingBox : AwsBoundingBox
  confidence : Rat
  deriving DecidableEq

/-- The response dict of `describe_collection`; each field is optional
because the service reads them with `.get`. -/
structure DescribeCollectionResponse where
  faceCount : Option Nat
  faceModelVersion : Option String
  collectionARN : Option String
  creationTimestamp : Option Nat
  deriving DecidableEq

/-- The boto3 Rekognition client as a record of oracle functions.  Every
collection-scoped operation takes the `CollectionId` as its first argument,
exactly as the corresponding boto3 call does. -/
structure RekoClient where
  describe_collection : String → BotoResponse DescribeCollectionResponse
  create_collection : String → BotoResponse Unit
  /-- `index_faces(CollectionId, Image, ExternalImageId, MaxFaces=1,
  QualityFilter="AUTO", DetectionAttributes=["DEFAULT"])`, returning the
  `FaceRecords` list of `Face` dicts. -/
  index_faces : String → List Nat → String → BotoResponse (List AwsFace)
  /-- `search_faces_by_image(CollectionId, Image, MaxFaces, FaceMatchThreshold)`,
  returning the `FaceMatches` list. -/
  search_faces_by_image : String → List Nat → Int → Rat → BotoResponse (List AwsFaceMatch)
  /-- `detect_faces(Image, Attributes)`, returning the `FaceDetails` list. -/
  detect_faces : List Nat → List String → BotoResponse (List AwsFaceDetail)
  /-- `list_faces(CollectionId, MaxResults)`, returning the `Faces` list
  (at most `MaxResults` entries: one page, no pagination token followed). -/
  list_faces : String → Nat → BotoResponse (List AwsFace)
  /-- `delete_faces(CollectionId, FaceIds)`, returning the `DeletedFaces` list. -/
  delete_faces : String → List String → BotoResponse (List String)

/-- The settings fields read by `RekognitionService.__init__` and the
event-indexer lambda (`config.py` / the settings object injected in tests). -/
structure Settings where
  rekognition_collection_id : String
  rekognition_face_match_threshold : Rat
  rekognition_max_faces : Int
  s3_bucket_name : Option String
  deriving DecidableEq

namespace RekognitionService

/-- `ensure_collection_exists` (rekognition.py lines 55-69): describe the
configured collection; on `ResourceNotFoundException` create it.  Note that a
`ClientError` raised by the `create_collection` call happens inside the
`except ClientError` block and is therefore re-raised unwrapped. -/
def ensure_collection_exists (c : RekoClient) (s : Settings) : Except PyError Bool :=
  match c.describe_collection s.rekognition_collection_id with
  | .ok _ => .ok true
  | .error code =>
    if code = "ResourceNotFoundException" then
      match c.create_collection s.rekognition_collection_id with
      | .ok _ => .ok true
      | .error code2 => .error (.clientError code2)
    else .error (.rekognitionError ("Failed to ensure collection: " ++ code))

/-- Result dict of `index_face`. -/
structure IndexFaceResult where
  face_id : String
  user_id : String
  external_image_id : String
  bounding_box : Option AwsBoundingBox
  confidence : Rat
  deriving DecidableEq

/-- Python `external_image_id or str(user_id)`: `None` and the empty string
are falsy. -/
def pyOrString (x : Option String) (d : String) : String :=
  match x with
  | none => d
  | some v => if v = "" then d else v

/-- `index_face` (rekognition.py lines 71-125). -/
def index_face (c : RekoClient) (s : Settings) (user_id : String) (image_bytes : List Nat)
    (external_image_id : Option String) : Except PyError IndexFaceResult :=
  let external_id := pyOrString external_image_id user_id
  match c.index_faces s.rekognition_collection_id image_bytes external_id with
  | .ok faceRecords =>
    match faceRecords with
    | [] => .error (.faceNotFoundError "No face detected in the provided image")
    | face :: _ =>
      .ok { face_id := face.faceId
            user_id := user_id
            external_image_id := external_id
            bounding_box := face.boundingBox
            confidence := face.confidence }
  | .error code =>
    if code = "InvalidParameterException" then
      .error (.faceNotFoundError "No face detected or image quality too low")
    else .error (.rekognitionError ("Failed to index face: " ++ code))

/-- Python `max_faces or self._max_faces` (rekognition.py line 146): `None`
and `0` are falsy, so a caller-supplied `0` falls back to the settings value. -/
def effective_max_faces (s : Settings) (max_faces : Option Int) : Int :=
  match max_faces with
  | none => s.rekognition_max_faces
  | some v => if v = 0 then s.rekognition_max_faces else v

/-- Python `threshold or self._match_threshold` (rekognition.py line 147):
`None` and `0.0` are falsy, so a caller-supplied `0.0` falls back to the
settings value. -/
def effective_threshold (s : Settings) (threshold : Option Rat) : Rat :=
  match threshold with
  | none => s.rekognition_face_match_threshold
  | some v => if v = 0 then s.rekognition_face_match_threshold else v

/-- One entry of the match list built by `search_faces_by_image`. -/
structure FaceMatchDict where
  user_id : Option String
  face_id : String
  similarity : Rat
  confidence : Rat
  bounding_box : Option AwsBoundingBox
  deriving DecidableEq

/-- The loop body of rekognition.py lines 157-168. -/
def toFaceMatchDict (m : AwsFaceMatch) : FaceMatchDict :=
  { user_id := m.face.externalImageId
    face_id := m.face.faceId
    similarity := m.similarity
    confidence := m.face.confidence
    bounding_box := m.face.boundingBox }

/-- The body of `search_faces_by_image` after the two defaulting lines
(rekognition.py lines 149-176): call the backend against the configured
collection and shape the matches; an `InvalidParameterException` (no usable
face in the query image) yields an empty list, any other `ClientError` is
wrapped as `RekognitionError`. -/
def search_core (c : RekoClient) (s : Settings) (image_bytes : List Nat)
    (max_faces : Int) (threshold : Rat) : Except PyError (List FaceMatchDict) :=
  match c.search_faces_by_image s.rekognition_collection_id image_bytes max_faces threshold with
  | .ok ms => .ok (ms.map toFaceMatchDict)
  | .error code =>
    if code = "InvalidParameterException" then .ok []
    else .error (.rekognitionError ("Failed to search faces: " ++ code))

/-- `search_faces_by_image` (rekognition.py lines 127-176). -/
def search_faces_by_image (c : RekoClient) (s : Settings) (image_bytes : List Nat)
    (max_faces : Option Int) (threshold : Option Rat) : Except PyError (List FaceMatchDict) :=
  search_core c s image_bytes (effective_max_faces s max_faces) (effective_threshold s threshold)

/-- Python `attributes or ["DEFAULT"]`: `None` and the empty list are falsy. -/
def pyOrAttrs (x : Option (List String)) : List String :=
  match x with
  | none => ["DEFAULT"]
  | some a => if a = [] then ["DEFAULT"] else a

/-- `detect_faces` (rekognition.py lines 178-223); the claims only use the
list of detected faces, so the per-face dict shaping keeps the detail record. -/
def detect_faces (c : RekoClient) (image_bytes : List Nat)
    (attributes : Option (List String)) : Except PyError (List AwsFaceDetail) :=
  match c.detect_faces image_bytes (pyOrAttrs attributes) with
  | .ok ds => .ok ds
  | .error code => .error (.rekognitionError ("Failed to detect faces: " ++ code))

/-- `delete_faces_by_user` (rekognition.py lines 244-276): list one page of at
most 100 faces, keep those whose `ExternalImageId` equals `str(user_id)`,
delete them in one batch call, and return the number deleted;
returns 0 without calling `delete_faces` when no listed face matches. -/
def delete_faces_by_user (c : RekoClient) (s : Settings) (user_id : String) :
    Except PyError Nat :=
  match c.list_faces s.rekognition_collection_id 100 with
  | .error code => .error (.rekognitionError ("Failed to delete user faces: " ++ code))
  | .ok faces =>
    let face_ids_to_delete :=
      (faces.filter (fun f => f.externalImageId == some user_id)).map (fun f => f.faceId)
    if face_ids_to_delete = [] then .ok 0
    else
      match c.delete_faces s.rekognition_collection_id face_ids_to_delete with
      | .ok deleted => .ok deleted.length
      | .error code => .error (.rekognitionError ("Failed to delete user faces: " ++ code))

/-- Result dict of `get_collection_stats`. -/
structure CollectionStats where
  collection_id : String
  face_count : Nat
  face_model_version : Option String
  collection_arn : Option String
  creation_timestamp : Option Nat
  deriving DecidableEq

/-- `get_collection_stats` (rekognition.py lines 278-301). -/
def get_collection_stats (c : RekoClient) (s : Settings) : Except PyError CollectionStats :=
  match c.describe_collection s.rekognition_collection_id with
  | .ok r =>
    .ok { collection_id := s.rekognition_collection_id
          face_count := r.faceCount.getD 0
          face_model_version := r.faceModelVersion
          collection_arn := r.collectionARN
          creation_timestamp := r.creationTimestamp }
  | .error code =>
    if code = "ResourceNotFoundException" then
      .error (.collectionNotFoundError
        ("Collection not found: " ++ s.rekognition_collection_id))
    else .error (.rekognitionError ("Failed to get collection stats: " ++ code))

end RekognitionService

/-! ### Base64 decoding (`decode_base64_image`, rekognition.py lines 326-335) -/

/-- Value of a standard base64 alphabet character. -/
def b64Val (c : Char) : Option Nat :=
  if 'A' ≤ c ∧ c ≤ 'Z' then some (c.toNat - 65)
  else if 'a' ≤ c ∧ c ≤ 'z' then some (c.toNat - 97 + 26)
  else if '0' ≤ c ∧ c ≤ '9' then some (c.toNat - 48 + 52)
  else if c = '+' then some 62
  else if c = '/' then some 63
  else none

/-- Decode complete groups of four base64 digits into three bytes each. -/
def decodeQuads : List Nat → List Nat
  | a :: b :: c :: d :: rest =>
    let n := ((a * 64 + b) * 64 + c) * 64 + d
    (n / 65536) :: (n / 256 % 256) :: (n % 256) :: decodeQuads rest
  | _ => []

/-- Decode a trailing group of two or three base64 digits (padded input). -/
def decodeLastGroup : List Nat → List Nat
  | [a, b] => [(a * 64 + b) / 16]
  | [a, b, c] => [((a * 64 + b) * 64 + c) / 1024, ((a * 64 + b) * 64 + c) / 4 % 256]
  | _ => []

/-- Python `base64.b64decode` with `validate=False` on standard inputs:
characters outside the base64 alphabet are discarded, the retained characters
must consist of complete four-character groups where the padding characters
appear only at the end, and a retained-character count incompatible with the
padding raises a `binascii.Error` (modelled as `.error`). -/
def b64decode (cs : List Char) : Except String (List Nat) :=
  let kept := cs.filter (fun c => (b64Val c).isSome || c == '=')
  let body := kept.takeWhile (fun c => c != '=')
  let padding := kept.drop body.length
  if padding.any (fun c => c != '=') then
    .error "Discontinuous padding not allowed"
  else
    let digits := body.filterMap b64Val
    let p := padding.length
    let k := digits.length / 4 * 4
    if digits.length % 4 = 0 ∧ p = 0 then .ok (decodeQuads digits)
    else if digits.length % 4 = 2 ∧ p = 2 then
      .ok (decodeQuads (digits.take k) ++ decodeLastGroup (digits.drop k))
    else if digits.length % 4 = 3 ∧ p = 1 then
      .ok (decodeQuads (digits.take k) ++ decodeLastGroup (digits.drop k))
    else .error "Incorrect padding"

/-- `decode_base64_image` (rekognition.py lines 326-335): when a comma is
present the data-URL prefix up to the first comma is stripped
(`base64_string.split(",", 1)[1]`), then the remainder is base64-decoded. -/
def decode_base64_image (s : String) : Except String (List Nat) :=
  let cs := s.data
  let cs := if cs.contains ',' then (cs.dropWhile (fun c => c != ',')).drop 1 else cs
  b64decode cs

/-! ### Recognition endpoint embeddings (`api/recognition.py`) -/

/-- The distinct HTTP failure classes an endpoint call can end in.
`badRequest` is the 400 client fault, `notFound` 404, `badGateway` the 502
gateway fault; `internalError` models an exception that no `except` clause in
the endpoint catches (FastAPI turns it into a 500). -/
inductive HTTPFailure where
  | badRequest (detail : String)
  | notFound (detail : String)
  | badGateway (detail : String)
  | internalError (e : PyError)
  deriving DecidableEq

/-- The `BoundingBox` response schema (schemas/recognition.py). -/
structure BoundingBox where
  width : Rat
  height : Rat
  left : Rat
  top : Rat
  deriving DecidableEq

/-- `_convert_bounding_box` (api/recognition.py lines 35-44). -/
def convert_bounding_box : Option AwsBoundingBox → Option BoundingBox
  | none => none
  | some b => some { width := b.width, height := b.height, left := b.left, top := b.top }

/-- The `FaceMatch` response schema. -/
structure FaceMatch where
  user_id : Option String
  face_id : String
  similarity : Rat
  confidence : Rat
  bounding_box : Option BoundingBox
  deriving DecidableEq

/-- The per-match shaping of api/recognition.py lines 84-93. -/
def toFaceMatch (m : RekognitionService.FaceMatchDict) : FaceMatch :=
  { user_id := m.user_id
    face_id := m.face_id
    similarity := m.similarity
    confidence := m.confidence
    bounding_box := convert_bounding_box m.bounding_box }

/-- The `FrameDetectionRequest` schema (schemas/recognition.py lines 43-67):
`image_base64` (min length 100), optional `event_id`, optional `max_faces`
in [1, 20], optional `threshold` in [0, 100]. -/
structure FrameDetectionRequest where
  image_base64 : String
  event_id : Option String
  max_faces : Option Int
  threshold : Option Rat
  deriving DecidableEq

/-- The pydantic field constraints of `FrameDetectionRequest`: requests
admitted by the schema and handed to the endpoint. -/
def FrameDetectionRequest.schemaValid (r : FrameDetectionRequest) : Bool :=
  r.image_base64.length ≥ 100 &&
  r.max_faces.all (fun v => 1 ≤ v && v ≤ 20) &&
  r.threshold.all (fun t => 0 ≤ t && t ≤ 100)

/-- The `FrameDetectionResponse` schema. -/
structure FrameDetectionResponse where
  «matches» : List FaceMatch
  faces_detected : Nat
  processing_time_ms : Rat
  event_id : Option String
  deriving DecidableEq

/-- Round-half-to-even of a rational to an integer (Python `round`),
computed on the numerator and denominator: `f` is the floor and `r2` twice
the numerator of the fractional part over `q.den`. -/
def roundHalfToEven (q : Rat) : Int :=
  let f : Int := q.num / (q.den : Int)
  let r2 : Int := 2 * (q.num - f * (q.den : Int))
  if r2 < (q.den : Int) then f
  else if (q.den : Int) < r2 then f + 1
  else if f % 2 = 0 then f else f + 1

/-- Python `round(x, 2)` with real time modelled as rationals. -/
def round2 (q : Rat) : Rat := (roundHalfToEven (q * 100) : Rat) / 100

/-- Exception-to-HTTP mapping of the endpoints' trailing
`except RekognitionError` clause: a `RekognitionError` (or subclass) becomes
the 502 gateway failure; any other exception is uncaught. -/
def toGatewayFailure (e : PyError) : HTTPFailure :=
  if e.isRekognitionError then
    .badGateway ("Recognition service error: " ++ e.message)
  else .internalError e

/-- Wall-clock durations of the externally visible steps of one
`detect_faces_in_frame` call: the base64 decode and the three backend calls.
The pure-Python match shaping is not given a duration of its own. -/
structure StepDurations where
  decode_ms : Rat
  ensure_ms : Rat
  detect_ms : Rat
  search_ms : Rat
  deriving DecidableEq

/-- `detect_faces_in_frame` (api/recognition.py lines 47-108), with the wall
clock made explicit: `now0` is `time.perf_counter()` converted to
milliseconds, and each step advances the clock by its duration.
`start_time` is taken at line 62, BEFORE the base64 decode of the frame, and
the elapsed time is read at line 95 after the search, so the reported
`processing_time_ms` spans decode + ensure + detect + search.
A failing decode is the 400 client fault; a `RekognitionError` from any of
the three service calls is the 502 gateway failure. -/
def detect_faces_in_frame (c : RekoClient) (s : Settings) (d : StepDurations)
    (now0 : Rat) (req : FrameDetectionRequest) : Except HTTPFailure FrameDetectionResponse :=
  let start_time := now0
  match decode_base64_image req.image_base64 with
  | .error e => .error (.badRequest ("Invalid base64 image: " ++ e))
  | .ok image_bytes =>
    let now1 := now0 + d.decode_ms
    match RekognitionService.ensure_collection_exists c s with
    | .error e => .error (toGatewayFailure e)
    | .ok _ =>
      let now2 := now1 + d.ensure_ms
      match RekognitionService.detect_faces c image_bytes none with
      | .error e => .error (toGatewayFailure e)
      | .ok detected =>
        let now3 := now2 + d.detect_ms
        match RekognitionService.search_faces_by_image c s image_bytes
            req.max_faces req.threshold with
        | .error e => .error (toGatewayFailure e)
        | .ok matches_raw =>
          let now4 := now3 + d.search_ms
          .ok { «matches» := matches_raw.map toFaceMatch
                faces_detected := detected.length
                processing_time_ms := round2 (now4 - start_time)
                event_id := req.event_id }

/-- The `FaceIndexResponse` schema fields the claims use. -/
structure FaceIndexResponse where
  face_id : String
  user_id : String
  confidence : Rat
  bounding_box : Option BoundingBox
  deriving DecidableEq

/-- Exception mapping of `index_user_face`: `except FaceNotFoundError`
(400 retake-photo fault) before `except RekognitionError` (502). -/
def indexEndpointFailure (e : PyError) : HTTPFailure :=
  match e with
  | .faceNotFoundError _ =>
    .badRequest "No face detected in the image. Please provide a clear photo of your face."
  | _ => toGatewayFailure e

/-- `index_user_face` (api/recognition.py lines 111-155). -/
def index_user_face (c : RekoClient) (s : Settings) (current_user : String)
    (image_base64 : String) : Except HTTPFailure FaceIndexResponse :=
  match decode_base64_image image_base64 with
  | .error e => .error (.badRequest ("Invalid base64 image: " ++ e))
  | .ok image_bytes =>
    match RekognitionService.ensure_collection_exists c s with
    | .error e => .error (indexEndpointFailure e)
    | .ok _ =>
      match RekognitionService.index_face c s current_user image_bytes none with
      | .error e => .error (indexEndpointFailure e)
      | .ok r =>
        .ok { face_id := r.face_id
              user_id := current_user
              confidence := r.confidence
              bounding_box := convert_bounding_box r.bounding_box }

/-- The `FaceDeleteResponse` schema. -/
structure FaceDeleteResponse where
  deleted_count : Nat
  user_id : String
  deriving DecidableEq

/-- `delete_my_faces` (api/recognition.py lines 158-178). -/
def delete_my_faces (c : RekoClient) (s : Settings) (current_user : String) :
    Except HTTPFailure FaceDeleteResponse :=
  match RekognitionService.delete_faces_by_user c s current_user with
  | .ok n => .ok { deleted_count := n, user_id := current_user }
  | .error e => .error (toGatewayFailure e)

/-- `get_collection_stats` endpoint (api/recognition.py lines 235-263):
`CollectionNotFoundError` becomes the benign 404; other `RekognitionError`
the 502 gateway failure. -/
def collection_stats_endpoint (c : RekoClient) (s : Settings) :
    Except HTTPFailure RekognitionService.CollectionStats :=
  match RekognitionService.get_collection_stats c s with
  | .ok st => .ok st
  | .error (.collectionNotFoundError _) =>
    .error (.notFound "Face collection not found. It will be created when the first face is indexed.")
  | .error e => .error (toGatewayFailure e)

/-! ### Consent store (`dals/consent_dal.py`) -/

/-- One row of the `event_consents` table, keyed by (event_id, user_id);
timestamps are abstract instants. -/
structure ConsentRecord where
  allow_profile_display : Bool
  allow_recognition : Bool
  consented_at : Option Nat
  revoked_at : Option Nat
  deriving DecidableEq

/-- The `ConsentUpdate` schema: each flag optionally updated. -/
structure ConsentUpdate where
  allow_profile_display : Option Bool
  allow_recognition : Option Bool
  deriving DecidableEq

/-- The partial `update_data` dict built by `ConsentDAL.update`:
`none` means the key is absent, `some v` means the key is present with
value `v` (for the timestamp columns `some none` is an explicit SQL NULL). -/
structure ConsentUpdateData where
  allow_profile_display : Option Bool
  allow_recognition : Option Bool
  consented_at : Option (Option Nat)
  revoked_at : Option (Option Nat)
  deriving DecidableEq

/-- Python `if not update_data` (consent_dal.py line 98): the dict is empty
iff no key was ever written, which happens iff both schema fields are None. -/
def ConsentUpdateData.isEmpty (ud : ConsentUpdateData) : Bool :=
  ud.allow_profile_display = none ∧ ud.allow_recognition = none ∧
    ud.consented_at = none ∧ ud.revoked_at = none

namespace ConsentDAL

/-- The `update_data` dict construction of `ConsentDAL.update`
(consent_dal.py lines 75-97).  The profile-display branch handles both the
false-to-true grant and the true-to-false revocation; the recognition branch
(under the comment "Similar logic for recognition consent") only handles the
false-to-true grant — there is no true-to-false branch for
`allow_recognition`. -/
def buildUpdateData (current : ConsentRecord) (data : ConsentUpdate) (now : Nat) :
    ConsentUpdateData :=
  let ud : ConsentUpdateData := ⟨none, none, none, none⟩
  let ud :=
    match data.allow_profile_display with
    | none => ud
    | some b =>
      let ud := { ud with allow_profile_display := some b }
      if b ∧ ¬ current.allow_profile_display then
        { ud with consented_at := some (some now), revoked_at := some none }
      else if ¬ b ∧ current.allow_profile_display then
        { ud with revoked_at := some (some now) }
      else ud
  match data.allow_recognition with
  | none => ud
  | some b =>
    let ud := { ud with allow_recognition := some b }
    if b ∧ ¬ current.allow_recognition then
      { ud with
        consented_at := if ud.consented_at = none then some (some now) else ud.consented_at
        revoked_at := some none }
    else ud

/-- Applying the partial update dict to the stored row (the supabase
`.update(update_data)` call): present keys overwrite, absent keys keep the
stored value. -/
def applyUpdateData (current : ConsentRecord) (ud : ConsentUpdateData) : ConsentRecord :=
  { allow_profile_display := ud.allow_profile_display.getD current.allow_profile_display
    allow_recognition := ud.allow_recognition.getD current.allow_recognition
    consented_at := ud.consented_at.getD current.consented_at
    revoked_at := ud.revoked_at.getD current.revoked_at }

/-- `ConsentDAL.update` (consent_dal.py lines 63-111) on an existing row:
build the partial dict from the flag transitions and apply it; an empty dict
returns the row unchanged. -/
def update (current : ConsentRecord) (data : ConsentUpdate) (now : Nat) : ConsentRecord :=
  let ud := buildUpdateData current data now
  if ud.isEmpty then current else applyUpdateData current ud

/-- `ConsentDAL.grant_all` (consent_dal.py lines 113-121): update with both
flags set to true. -/
def grant_all (current : ConsentRecord) (now : Nat) : ConsentRecord :=
  update current ⟨some true, some true⟩ now

/-- `ConsentDAL.revoke_all` (consent_dal.py lines 123-145): unconditionally
writes both flags false and `revoked_at = now`, regardless of the current
flag values; `consented_at` is left untouched. -/
def revoke_all (current : ConsentRecord) (now : Nat) : ConsentRecord :=
  { current with
    allow_profile_display := false
    allow_recognition := false
    revoked_at := some now }

end ConsentDAL

/-! ### Event indexing reconciler (`lambdas/event_indexer/handler.py`)

The handler drives DAL queries and a per-collection `RekognitionService`
variant (`RekognitionService()` with no arguments, `ensure_collection_exists`
taking a `collection_id`, and `index_face_from_s3`) whose definition is not
part of the sources; those collaborators are modelled as oracle functions,
the ones absent from the sources from the spec's description of them.
Event ids and user ids are their string (UUID) forms. -/

/-- The profile attribute the reconciler reads. -/
structure ProfileRec where
  photo_path : Option String
  deriving DecidableEq

/-- `EventProcessingStatus` (schemas/event.py). -/
inductive EventStatus where
  | pending
  | in_progress
  | completed
  | failed
  deriving DecidableEq

namespace EventIndexer

/-- Python truthiness of an optional string: `None` and `""` are falsy.
Used for `if not settings.s3_bucket_name` and `if ... not profile.photo_path`. -/
def pyFalsyStr : Option String → Bool
  | none => true
  | some s => s = ""

/-- The collaborators of one reconciliation run.  Each oracle returns
`.error msg` when the corresponding Python call raises.

`get_event_recognition_users` and `get_profile_by_user_id` embed the DAL
calls the handler makes.  `ensure_collection` and `index_face_from_s3` are
Modelled from the spec: the per-collection `RekognitionService` variant the
handler calls is missing from the sources; per the spec they are the
idempotent collection create and the by-storage-reference `index_face` with
arguments (collection_id, bucket_name, object_key, image_id). -/
structure ReconcilerEnv where
  s3_bucket_name : Option String
  get_event_recognition_users : String → Except String (List String)
  get_profile_by_user_id : String → Except String (Option ProfileRec)
  ensure_collection : String → Except String Unit
  index_face_from_s3 : String → String → String → String → Except String Unit

/-- `collection_id = f"memento_event_{event_id}"` (handler.py line 55). -/
def collection_id_for (event_id : String) : String :=
  "memento_event_" ++ event_id

/-- `settings.s3_bucket_name` at the index call; `run` has already checked it
is truthy. -/
def pyGetBucket (env : ReconcilerEnv) : String :=
  env.s3_bucket_name.getD ""

/-- The per-user loop of handler.py lines 63-79: skip users with a missing
profile or a falsy `photo_path`; index the rest by storage reference with the
user id as the image id.  Returns the list of (collection_id, image_id)
pairs actually indexed (these calls happened even if a later one raises) and
the first raised error, if any. -/
def indexUsers (env : ReconcilerEnv) (cid : String) :
    List String → List (String × String) × Option String
  | [] => ([], none)
  | user_id :: rest =>
    match env.get_profile_by_user_id user_id with
    | .error e => ([], some e)
    | .ok none => indexUsers env cid rest
    | .ok (some profile) =>
      match profile.photo_path with
      | none => indexUsers env cid rest
      | some photo_path =>
        if photo_path = "" then indexUsers env cid rest
        else
          match env.index_face_from_s3 cid (pyGetBucket env) photo_path user_id with
          | .error e => ([], some e)
          | .ok _ =>
            let tail := indexUsers env cid rest
            ((cid, user_id) :: tail.1, tail.2)

/-- The `try` body of one loop iteration (handler.py lines 48-86) after the
in-progress status write: ensure the event's collection, fetch the consenting
users, index them.  Returns whether the iteration reached the completed
status write without raising, together with the faces it indexed. -/
def processOne (env : ReconcilerEnv) (event_id : String) :
    Bool × List (String × String) :=
  let cid := collection_id_for event_id
  match env.ensure_collection cid with
  | .error _ => (false, [])
  | .ok _ =>
    match env.get_event_recognition_users event_id with
    | .error _ => (false, [])
    | .ok user_ids =>
      match indexUsers env cid user_ids with
      | (idx, some _) => (false, idx)
      | (idx, none) => (true, idx)

/-- The observable outcome of a run: the summary counts returned by `_run`,
the chronological event-status writes, and the faces indexed into the
backend (collection_id, image_id). -/
structure RunResult where
  events_scanned : Nat
  events_completed : Nat
  events_failed : Nat
  status_writes : List (String × EventStatus)
  indexed : List (String × String)
  deriving DecidableEq

/-- One iteration of the `for event_item in events` loop (handler.py lines
45-94): write in_progress, run the try body, then write completed (and count
the event processed) or — on any exception — write failed (and count the
event failed).  The DAL status writes themselves are modelled as reliable. -/
def runStep (env : ReconcilerEnv) (acc : RunResult) (event_id : String) : RunResult :=
  let acc := { acc with
    status_writes := acc.status_writes ++ [(event_id, EventStatus.in_progress)] }
  match processOne env event_id with
  | (true, idx) =>
    { acc with
      status_writes := acc.status_writes ++ [(event_id, EventStatus.completed)]
      indexed := acc.indexed ++ idx
      events_completed := acc.events_completed + 1 }
  | (false, idx) =>
    { acc with
      status_writes := acc.status_writes ++ [(event_id, EventStatus.failed)]
      indexed := acc.indexed ++ idx
      events_failed := acc.events_failed + 1 }

/-- The loop of `_run` over the selected pending events, starting from empty
counters; `events_scanned` is `len(events)`. -/
def runFold (env : ReconcilerEnv) (events : List String) : RunResult :=
  events.foldl (runStep env)
    { events_scanned := events.length
      events_completed := 0
      events_failed := 0
      status_writes := []
      indexed := [] }

/-- `_run` (handler.py lines 27-102) over the list of events selected by
`get_events_pending_indexing`: raises when `s3_bucket_name` is not
configured, otherwise processes every selected event and returns the summary
counts. -/
def run (env : ReconcilerEnv) (events : List String) : Except String RunResult :=
  if pyFalsyStr env.s3_bucket_name then .error "s3_bucket_name must be configured."
  else .ok (runFold env events)

/-- The event's `indexing_status` after the run: the last status write for
that event. -/
def finalStatus (r : RunResult) (event_id : String) : Option EventStatus :=
  ((r.status_writes.filter (fun w => w.1 == event_id)).getLast?).map (fun w => w.2)

/-- The per-user step of one reconciliation iteration raises nothing for
user `u`: the profile read succeeds, and when it yields a truthy photo path
the index call succeeds too.  A missing profile or missing/empty photo path
counts as ok — the loop skips it. -/
def userStepOk (env : ReconcilerEnv) (cid u : String) : Bool :=
  match env.get_profile_by_user_id u with
  | .error _ => false
  | .ok none => true
  | .ok (some profile) =>
    match profile.photo_path with
    | none => true
    | some s => s == "" || env.index_face_from_s3 cid (pyGetBucket env) s u == .ok ()

/-- The two status writes one loop iteration performs for its event. -/
def eventWrites (env : ReconcilerEnv) (e : String) : List (String × EventStatus) :=
  [(e, .in_progress), (e, if (processOne env e).1 then .completed else .failed)]

/-- All status writes of a run, event by event. -/
def writesOf (env : ReconcilerEnv) : List String → List (String × EventStatus)
  | [] => []
  | e :: es => eventWrites env e ++ writesOf env es

/-- All indexed faces of a run, event by event. -/
def indexedOf (env : ReconcilerEnv) : List String → List (String × String)
  | [] => []
  | e :: es => (processOne env e).2 ++ indexedOf env es

theorem runStep_events_scanned (env : ReconcilerEnv) (acc : RunResult) (e : String) :
    (runStep env acc e).events_scanned = acc.events_scanned := by
  unfold runStep
  rcases hp : processOne env e with ⟨b, idx⟩
  cases b <;> rfl

theorem runStep_events_completed (env : ReconcilerEnv) (acc : RunResult) (e : String) :
    (runStep env acc e).events_completed
      = acc.events_completed + (if (processOne env e).1 then 1 else 0) := by
  unfold runStep
  rcases hp : processOne env e with ⟨b, idx⟩
  cases b <;> simp

theorem runStep_events_failed (env : ReconcilerEnv) (acc : RunResult) (e : String) :
    (runStep env acc e).events_failed
      = acc.events_failed + (if (processOne env e).1 then 0 else 1) := by
  unfold runStep
  rcases hp : processOne env e with ⟨b, idx⟩
  cases b <;> simp

theorem runStep_status_writes (env : ReconcilerEnv) (acc : RunResult) (e : String) :
    (runStep env acc e).status_writes = acc.status_writes ++ eventWrites env e := by
  unfold runStep eventWrites
  rcases hp : processOne env e with ⟨b, idx⟩
  cases b <;> simp

theorem runStep_indexed (env : ReconcilerEnv) (acc : RunResult) (e : String) :
    (runStep env acc e).indexed = acc.indexed ++ (processOne env e).2 := by
  unfold runStep
  rcases hp : processOne env e with ⟨b, idx⟩
  cases b <;> simp

theorem foldl_runStep_events_scanned (env : ReconcilerEnv) (es : List String)
    (acc : RunResult) :
    (es.foldl (runStep env) acc).events_scanned = acc.events_scanned := by
  induction es generalizing acc with
  | nil => rfl
  | cons e es ih => rw [List.foldl_cons, ih, runStep_events_scanned]

theorem foldl_runStep_events_completed (env : ReconcilerEnv) (es : List String)
    (acc : RunResult) :
    (es.foldl (runStep env) acc).events_completed
      = acc.events_completed + es.countP (fun e => (processOne env e).1) := by
  induction es generalizing acc with
  | nil => simp
  | cons e es ih =>
    rw [List.foldl_cons, ih, runStep_events_completed, List.countP_cons]
    cases h : (processOne env e).1 <;> simp [h] <;> try omega

theorem foldl_runStep_events_failed (env : ReconcilerEnv) (es : List String)
    (acc : RunResult) :
    (es.foldl (runStep env) acc).events_failed
      = acc.events_failed + es.countP (fun e => ! (processOne env e).1) := by
  induction es generalizing acc with
  | nil => simp
  | cons e es ih =>
    rw [List.foldl_cons, ih, runStep_events_failed, List.countP_cons]
    cases h : (processOne env e).1 <;> simp [h] <;> try omega

theorem foldl_runStep_status_writes (env : ReconcilerEnv) (es : List String)
    (acc : RunResult) :
    (es.foldl (runStep env) acc).status_writes = acc.status_writes ++ writesOf env es := by
  induction es generalizing acc with
  | nil => simp [writesOf]
  | cons e es ih =>
    rw [List.foldl_cons, ih, runStep_status_writes, writesOf, List.append_assoc]

theorem foldl_runStep_indexed (env : ReconcilerEnv) (es : List String)
    (acc : RunResult) :
    (es.foldl (runStep env) acc).indexed = acc.indexed ++ indexedOf env es := by
  induction es generalizing acc with
  | nil => simp [indexedOf]
  | cons e es ih =>
    rw [List.foldl_cons, ih, runStep_indexed, indexedOf, List.append_assoc]

theorem writesOf_keys (env : ReconcilerEnv) (es : List String) :
    ∀ w ∈ writesOf env es, w.1 ∈ es := by
  induction es with
  | nil => intro w hw; cases hw
  | cons e es ih =>
    intro w hw
    rcases List.mem_append.mp hw with h | h
    · simp only [eventWrites, List.mem_cons, List.mem_singleton, List.not_mem_nil,
        or_false] at h
      rcases h with rfl | rfl
      · exact List.mem_cons_self e es
      · exact List.mem_cons_self e es
    · exact List.mem_cons_of_mem e (ih w h)

theorem countP_total (es : List String) (p : String → Bool) :
    es.countP p + es.countP (fun e => ! p e) = es.length := by
  induction es with
  | nil => simp
  | cons e es ih =>
    rw [List.countP_cons, List.countP_cons]
    cases h : p e <;> simp [h] <;> try omega

theorem finalStatus_writesOf (env : ReconcilerEnv) (es : List String) (e : String)
    (he : e ∈ es) :
    ((writesOf env es).filter (fun w => w.1 == e)).getLast?
      = some (e, if (processOne env e).1 then EventStatus.completed else EventStatus.failed) := by
  induction es with
  | nil => cases he
  | cons a es ih =>
    rw [writesOf, List.filter_append]
    by_cases hes : e ∈ es
    · have htail := ih hes
      rw [List.getLast?_append, htail]
      rfl
    · have hea : e = a := by
        rcases List.mem_cons.mp he with h | h
        · exact h
        · exact absurd h hes
      subst hea
      have hnil : (writesOf env es).filter (fun w => w.1 == e) = [] := by
        apply List.filter_eq_nil_iff.mpr
        intro w hw
        have := writesOf_keys env es w hw
        simp only [beq_iff_eq]
        intro hweq
        rw [hweq] at this
        exact hes this
      rw [hnil, List.append_nil]
      simp [eventWrites]

theorem indexedOf_mem (env : ReconcilerEnv) (es : List String)
    (p : String × String) (hp : p ∈ indexedOf env es) :
    ∃ e ∈ es, p ∈ (processOne env e).2 := by
  induction es with
  | nil => cases hp
  | cons e es ih =>
    rw [indexedOf] at hp
    rcases List.mem_append.mp hp with h | h
    · exact ⟨e, List.mem_cons_self e es, h⟩
    · obtain ⟨e', he', hpe⟩ := ih h
      exact ⟨e', List.mem_cons_of_mem e he', hpe⟩

theorem indexUsers_mem (env : ReconcilerEnv) (cid : String) (users : List String) :
    ∀ p ∈ (indexUsers env cid users).1,
      p.1 = cid ∧ p.2 ∈ users ∧
        ∃ profile s, env.get_profile_by_user_id p.2 = .ok (some profile) ∧
          profile.photo_path = some s ∧ s ≠ "" ∧
          env.index_face_from_s3 cid (pyGetBucket env) s p.2 = .ok () := by
  induction users with
  | nil => intro p hp; cases hp
  | cons u rest ih =>
    intro p hp
    rw [indexUsers] at hp
    rcases hpu : env.get_profile_by_user_id u with e | op
    · simp only [hpu] at hp
      cases hp
    · simp only [hpu] at hp
      cases op with
      | none =>
        obtain ⟨h1, h2, h3⟩ := ih p hp
        exact ⟨h1, List.mem_cons_of_mem u h2, h3⟩
      | some profile =>
        rcases hpp : profile.photo_path with _ | s
        · simp only [hpp] at hp
          obtain ⟨h1, h2, h3⟩ := ih p hp
          exact ⟨h1, List.mem_cons_of_mem u h2, h3⟩
        · simp only [hpp] at hp
          by_cases hs : s = ""
          · simp only [if_pos hs] at hp
            obtain ⟨h1, h2, h3⟩ := ih p hp
            exact ⟨h1, List.mem_cons_of_mem u h2, h3⟩
          · simp only [if_neg hs] at hp
            rcases hidx : env.index_face_from_s3 cid (pyGetBucket env) s u with e | uok
            · simp only [hidx] at hp
              cases hp
            · simp only [hidx] at hp
              rcases List.mem_cons.mp hp with h | h
              · rw [h]
                exact ⟨rfl, List.mem_cons_self u rest,
                  profile, s, hpu, hpp, hs, by rw [hidx]⟩
              · obtain ⟨h1, h2, h3⟩ := ih p h
                exact ⟨h1, List.mem_cons_of_mem u h2, h3⟩

theorem processOne_indexed (env : ReconcilerEnv) (e : String) :
    ∀ p ∈ (processOne env e).2,
      p.1 = collection_id_for e ∧
        ∃ users, env.get_event_recognition_users e = .ok users ∧ p.2 ∈ users ∧
          ∃ profile s, env.get_profile_by_user_id p.2 = .ok (some profile) ∧
            profile.photo_path = some s ∧ s ≠ "" := by
  intro p hp
  rcases hens : env.ensure_collection (collection_id_for e) with err | u
  · simp only [processOne, hens] at hp
    cases hp
  · rcases hu : env.get_event_recognition_users e with err | users
    · simp only [processOne, hens, hu] at hp
      cases hp
    · rcases hidx : indexUsers env (collection_id_for e) users with ⟨idx, oerr⟩
      have hmem : p ∈ (indexUsers env (collection_id_for e) users).1 := by
        simp only [processOne, hens, hu, hidx] at hp
        rw [hidx]
        cases oerr <;> exact hp
      obtain ⟨h1, h2, profile, s, h3, h4, h5, _⟩ := indexUsers_mem env _ users p hmem
      exact ⟨h1, users, rfl, h2, profile, s, h3, h4, h5⟩

theorem indexUsers_noError (env : ReconcilerEnv) (cid : String) (users : List String)
    (h : ∀ u ∈ users, userStepOk env cid u = true) :
    (indexUsers env cid users).2 = none := by
  induction users with
  | nil => rfl
  | cons u rest ih =>
    have hu := h u (List.mem_cons_self u rest)
    have hr := ih (fun v hv => h v (List.mem_cons_of_mem u hv))
    rw [indexUsers]
    unfold userStepOk at hu
    rcases hpu : env.get_profile_by_user_id u with e | op
    · simp only [hpu] at hu
      exact Bool.noConfusion hu
    · simp only [hpu] at hu ⊢
      cases op with
      | none => exact hr
      | some profile =>
        rcases hpp : profile.photo_path with _ | s
        · simp only [hpp]
          exact hr
        · simp only [hpp] at hu ⊢
          by_cases hs : s = ""
          · rw [if_pos hs]
            exact hr
          · rw [if_neg hs]
            rcases hidx : env.index_face_from_s3 cid (pyGetBucket env) s u with e | uok
            · exfalso
              simp only [hidx, hs] at hu
              simp [hs] at hu
            · simp only [hidx]
              simpa using hr

theorem processOne_completes (env : ReconcilerEnv) (e : String) (users : List String)
    (hens : env.ensure_collection (collection_id_for e) = .ok ())
    (hu : env.get_event_recognition_users e = .ok users)
    (hok : ∀ u ∈ users, userStepOk env (collection_id_for e) u = true) :
    (processOne env e).1 = true := by
  rcases hidx : indexUsers env (collection_id_for e) users with ⟨idx, oerr⟩
  have hnone := indexUsers_noError env (collection_id_for e) users hok
  rw [hidx] at hnone
  subst hnone
  simp only [processOne, hens, hu, hidx]

theorem collection_id_for_inj {a b : String}
    (h : collection_id_for a = collection_id_for b) : a = b := by
  unfold collection_id_for at h
  obtain ⟨la⟩ := a
  obtain ⟨lb⟩ := b
  have hd := congrArg String.data h
  simp only [String.data_append] at hd
  exact congrArg String.mk (List.append_cancel_left hd)

end EventIndexer

/-! ### Concrete fixtures used by witnesses and counterexamples -/

/-- Example settings (the values the repository's tests configure). -/
def settingsEx : Settings :=
  { rekognition_collection_id := "test-collection"
    rekognition_face_match_threshold := 80
    rekognition_max_faces := 10
    s3_bucket_name := some "memento-bucket" }

/-- A benign backend: every call succeeds with an empty payload. -/
def stubClient : RekoClient :=
  { describe_collection := fun _ => .ok ⟨some 0, none, none, none⟩
    create_collection := fun _ => .ok ()
    index_faces := fun _ _ _ => .ok []
    search_faces_by_image := fun _ _ _ _ => .ok []
    detect_faces := fun _ _ => .ok []
    list_faces := fun _ _ => .ok []
    delete_faces := fun _ ids => .ok ids }

/-! ### C2 — graceful no-face on search -/

/-- Claim C2: for every collection and query image for which the backend
reports `InvalidParameterException` (no usable face in the query image),
`search_faces_by_image` returns an empty match list rather than raising; any
other backend `ClientError` raises the wrapped `RekognitionError`. -/
theorem search_no_face_graceful (c : RekoClient) (s : Settings) (image_bytes : List Nat)
    (max_faces : Option Int) (threshold : Option Rat) (code : String)
    (h : c.search_faces_by_image s.rekognition_collection_id image_bytes
      (RekognitionService.effective_max_faces s max_faces)
      (RekognitionService.effective_threshold s threshold) = .error code) :
    RekognitionService.search_faces_by_image c s image_bytes max_faces threshold =
      if code = "InvalidParameterException" then .ok []
      else .error (.rekognitionError ("Failed to search faces: " ++ code)) := by
  unfold RekognitionService.search_faces_by_image RekognitionService.search_core
  rw [h]

/-- Witness for C2: a backend reporting no usable face yields the empty
match list. -/
theorem search_no_face_graceful_witness :
    RekognitionService.search_faces_by_image
      { stubClient with search_faces_by_image := fun _ _ _ _ => .error "InvalidParameterException" }
      settingsEx [1, 2, 3] none none = .ok [] := by
  simpa using
    search_no_face_graceful
      { stubClient with search_faces_by_image := fun _ _ _ _ => .error "InvalidParameterException" }
      settingsEx [1, 2, 3] none none "InvalidParameterException" rfl

/-! ### C9 — idempotent ensure_collection -/

/-- A backend where the collection does not exist and creation fails with a
provider error. -/
def rnfCreateFailClient : RekoClient :=
  { stubClient with
    describe_collection := fun _ => .error "ResourceNotFoundException"
    create_collection := fun _ => .error "LimitExceededException" }

/-- Counterexample to C9 as stated: when the backend reports the collection
does not exist and the create call itself fails with a provider error, the
error escapes as the raw `ClientError`, not as the wrapped
`RekognitionError`. -/
theorem ensure_collection_unwrapped_create_error :
    RekognitionService.ensure_collection_exists rnfCreateFailClient settingsEx
      = .error (.clientError "LimitExceededException") ∧
    PyError.isRekognitionError (.clientError "LimitExceededException") = false := by
  decide

/-- Claim C9 (amended): `ensure_collection_exists` succeeds silently when the
collection exists, creates it when the backend reports
`ResourceNotFoundException`, and wraps a provider error from the describe
call as `RekognitionError`; a provider error raised by the create call
itself propagates as the raw client error, unwrapped. -/
theorem ensure_collection_behavior (c : RekoClient) (s : Settings) :
    (∀ r, c.describe_collection s.rekognition_collection_id = .ok r →
      RekognitionService.ensure_collection_exists c s = .ok true) ∧
    (∀ code, c.describe_collection s.rekognition_collection_id = .error code →
      code ≠ "ResourceNotFoundException" →
      RekognitionService.ensure_collection_exists c s =
        .error (.rekognitionError ("Failed to ensure collection: " ++ code))) ∧
    (∀ u, c.describe_collection s.rekognition_collection_id = .error "ResourceNotFoundException" →
      c.create_collection s.rekognition_collection_id = .ok u →
      RekognitionService.ensure_collection_exists c s = .ok true) ∧
    (∀ code2, c.describe_collection s.rekognition_collection_id = .error "ResourceNotFoundException" →
      c.create_collection s.rekognition_collection_id = .error code2 →
      RekognitionService.ensure_collection_exists c s = .error (.clientError code2)) := by
  refine ⟨?_, ?_, ?_, ?_⟩
  · intro r h
    unfold RekognitionService.ensure_collection_exists
    rw [h]
  · intro code h hne
    unfold RekognitionService.ensure_collection_exists
    rw [h]
    simp [hne]
  · intro u h hc
    unfold RekognitionService.ensure_collection_exists
    rw [h]
    simp [hc]
  · intro code2 h hc
    unfold RekognitionService.ensure_collection_exists
    rw [h]
    simp [hc]

/-- Witness for C9's amended theorem: an existing collection is left alone
and the call succeeds. -/
theorem ensure_collection_behavior_witness :
    RekognitionService.ensure_collection_exists stubClient settingsEx = .ok true :=
  (ensure_collection_behavior stubClient settingsEx).1 ⟨some 0, none, none, none⟩ rfl

/-! ### C5 — caller-supplied search parameters -/

/-- A match the probing backend returns only when queried with threshold 0. -/
def zeroMatch : AwsFaceMatch :=
  { similarity := 95
    face :=
      { faceId := "face-1"
        externalImageId := some "user-1"
        confidence := 99
        boundingBox := none } }

/-- A backend that answers with one match exactly when the query threshold is
0, and with no match otherwise — it makes the threshold actually sent to the
backend observable. -/
def zeroProbeClient : RekoClient :=
  { stubClient with
    search_faces_by_image := fun _ _ _ th => if th = 0 then .ok [zeroMatch] else .ok [] }

/-- A schema-valid frame request supplying `threshold = 0`. -/
def reqThresholdZero : FrameDetectionRequest :=
  { image_base64 := String.mk (List.replicate 100 'A')
    event_id := none
    max_faces := some 5
    threshold := some 0 }

/-- Counterexample to C5 as stated: threshold 0 is admitted by the request
schema, but the search does not run with it — against a backend that returns
a match exactly at threshold 0, the service (which defaults a falsy
threshold to the settings value 80) returns no match. -/
theorem search_threshold_zero_not_used :
    FrameDetectionRequest.schemaValid reqThresholdZero = true ∧
    reqThresholdZero.threshold = some 0 ∧
    zeroProbeClient.search_faces_by_image settingsEx.rekognition_collection_id [9] 5 0
      = .ok [zeroMatch] ∧
    RekognitionService.search_faces_by_image zeroProbeClient settingsEx [9] (some 5) (some 0)
      = .ok [] ∧
    RekognitionService.effective_threshold settingsEx (some 0) = 80 := by
  decide

/-- Claim C5 (amended): the face search runs with the caller-supplied
`max_faces` and `threshold` whenever the caller supplies a non-zero value,
and with the service defaults when the caller omits a parameter or supplies
0 — Python falsiness makes the schema-admissible `threshold = 0` fall back
to the default. -/
theorem search_effective_params (c : RekoClient) (s : Settings) (image_bytes : List Nat)
    (max_faces : Option Int) (threshold : Option Rat) :
    RekognitionService.search_faces_by_image c s image_bytes max_faces threshold =
      RekognitionService.search_core c s image_bytes
        (RekognitionService.effective_max_faces s max_faces)
        (RekognitionService.effective_threshold s threshold) ∧
    (max_faces = none →
      RekognitionService.effective_max_faces s max_faces = s.rekognition_max_faces) ∧
    (∀ v, max_faces = some v → v ≠ 0 →
      RekognitionService.effective_max_faces s max_faces = v) ∧
    (max_faces = some 0 →
      RekognitionService.effective_max_faces s max_faces = s.rekognition_max_faces) ∧
    (threshold = none →
      RekognitionService.effective_threshold s threshold = s.rekognition_face_match_threshold) ∧
    (∀ v, threshold = some v → v ≠ 0 →
      RekognitionService.effective_threshold s threshold = v) ∧
    (threshold = some 0 →
      RekognitionService.effective_threshold s threshold = s.rekognition_face_match_threshold) := by
  refine ⟨rfl, ?_, ?_, ?_, ?_, ?_, ?_⟩
  · intro h; subst h; rfl
  · intro v h hv; subst h; simp [RekognitionService.effective_max_faces, hv]
  · intro h; subst h; rfl
  · intro h; subst h; rfl
  · intro v h hv; subst h; simp [RekognitionService.effective_threshold, hv]
  · intro h; subst h; rfl

/-- Witness for C5's amended theorem: a supplied non-zero pair (5, 50) is
used as given. -/
theorem search_effective_params_witness :
    RekognitionService.effective_max_faces settingsEx (some 5) = 5 ∧
    RekognitionService.effective_threshold settingsEx (some 50) = 50 :=
  ⟨(search_effective_params stubClient settingsEx [] (some 5) (some 50)).2.2.1 5 rfl
      (by decide),
    (search_effective_params stubClient settingsEx [] (some 5) (some 50)).2.2.2.2.2.1 50 rfl
      (by decide)⟩

/-! ### C4 — consent timestamp transitions -/

/-- Claim C4 evaluated at the failing input: updating a record whose
`allow_recognition` is true with `allow_recognition = false` flips the flag
but never writes `revoked_at` (the recognition branch of `ConsentDAL.update`
has no true-to-false case), and `revoke_all` writes `revoked_at` even when
no flag changes. -/
theorem consent_timestamp_divergences :
    (ConsentDAL.update ⟨false, true, some 1, none⟩ ⟨none, some false⟩ 2).allow_recognition
        = false ∧
    (ConsentDAL.update ⟨false, true, some 1, none⟩ ⟨none, some false⟩ 2).revoked_at = none ∧
    (ConsentDAL.revoke_all ⟨false, false, some 1, none⟩ 5).revoked_at = some 5 := by
  decide

/-! ### C6 — deregistration by user -/

/-- A collection holding 101 faces: 100 belonging to another user followed by
the target user's face, which a single unpaginated `list_faces` page of 100
never returns. -/
def pageFaces : List AwsFace :=
  (List.range 100).map
    (fun i =>
      { faceId := "face-" ++ toString i
        externalImageId := some "someone-else"
        confidence := 99
        boundingBox := none })
    ++ [{ faceId := "face-target"
          externalImageId := some "user-1"
          confidence := 99
          boundingBox := none }]

/-- A backend over `pageFaces`: `list_faces` returns the first `MaxResults`
faces of the collection, `delete_faces` deletes the requested ids that
exist. -/
def pagingClient : RekoClient :=
  { stubClient with
    list_faces := fun _ maxResults => .ok (pageFaces.take maxResults)
    delete_faces := fun _ ids =>
      .ok (ids.filter (fun i => pageFaces.any (fun f => f.faceId == i))) }

/-- Claim C6 evaluated at the failing input: the collection contains exactly
one face whose external id is `user-1`, yet `delete_faces_by_user` (which
lists a single page of `MaxResults=100` and never follows pagination)
deletes nothing and returns 0 instead of deleting it and returning 1. -/
theorem delete_faces_by_user_misses_unlisted_face :
    (pageFaces.filter (fun f => f.externalImageId == some "user-1")).length = 1 ∧
    RekognitionService.delete_faces_by_user pagingClient settingsEx "user-1" = .ok 0 := by
  decide

/-! ### C7 — processing-time measurement -/

/-- A backend whose detection reports one face; everything else succeeds
with empty payloads. -/
def oneFaceClient : RekoClient :=
  { stubClient with
    detect_faces := fun _ _ =>
      .ok [{ boundingBox := { width := 1/2, height := 1/2, left := 0, top := 0 }
             confidence := 99 }] }

/-- A schema-valid frame request (100 base64 characters decoding to 75
bytes) carrying an event id. -/
def reqFrameA : FrameDetectionRequest :=
  { image_base64 := String.mk (List.replicate 100 'A')
    event_id := some "event-1"
    max_faces := none
    threshold := none }

/-- `roundHalfToEven` is the identity on integers. -/
theorem roundHalfToEven_intCast (n : Int) : roundHalfToEven ((n : Int) : Rat) = n := by
  unfold roundHalfToEven
  rw [Rat.num_intCast, Rat.den_intCast]
  simp

/-- Evaluation of the identify-frame endpoint on the one-face backend with
durations (5, 1, 1, 1): the reported time is 8 ms. -/
theorem detect_frame_eval :
    detect_faces_in_frame oneFaceClient settingsEx
        { decode_ms := 5, ensure_ms := 1, detect_ms := 1, search_ms := 1 } 0 reqFrameA
      = .ok { «matches» := []
              faces_detected := 1
              processing_time_ms := 8
              event_id := some "event-1" } := by
  have hdec : decode_base64_image reqFrameA.image_base64 = .ok (List.replicate 75 0) := by
    decide
  have hens : RekognitionService.ensure_collection_exists oneFaceClient settingsEx
      = .ok true := rfl
  have hdet : RekognitionService.detect_faces oneFaceClient (List.replicate 75 0) none
      = .ok [{ boundingBox := { width := 1/2, height := 1/2, left := 0, top := 0 }
               confidence := 99 }] := rfl
  have hsearch : RekognitionService.search_faces_by_image oneFaceClient settingsEx
      (List.replicate 75 0) reqFrameA.max_faces reqFrameA.threshold = .ok [] := rfl
  have h8 : round2 ((0 : Rat) + 5 + 1 + 1 + 1 - 0) = 8 := by
    have h800 : ((0 : Rat) + 5 + 1 + 1 + 1 - 0) * 100 = ((800 : Int) : Rat) := by norm_num
    rw [round2, h800, roundHalfToEven_intCast]
    norm_num
  simp only [detect_faces_in_frame, hdec, hens, hdet, hsearch, List.map_nil,
    List.length_cons, List.length_nil, h8]
  rfl

/-- Counterexample to C7 as stated: with a decode that takes 5 ms and
ensure/detect/search taking 1 ms each, the reported `processing_time_ms` is
8 — the timer starts at line 62 of api/recognition.py, before the base64
decode — whereas measuring steps 2-4 only would report 3. -/
theorem processing_time_includes_decode :
    detect_faces_in_frame oneFaceClient settingsEx
        { decode_ms := 5, ensure_ms := 1, detect_ms := 1, search_ms := 1 } 0 reqFrameA
      = .ok { «matches» := []
              faces_detected := 1
              processing_time_ms := 8
              event_id := some "event-1" } ∧
    (8 : Rat) ≠ 1 + 1 + 1 :=
  ⟨detect_frame_eval, by norm_num⟩

/-- Claim C7 (amended): for every successful identify-frame call the
returned `processing_time_ms` is the rounded elapsed wall-clock time from
just before the base64 decode of the frame through the end of the search
step — it spans decode + ensure + detect + search, decode included. -/
theorem processing_time_spans_decode_and_steps (c : RekoClient) (s : Settings)
    (d : StepDurations) (now0 : Rat) (req : FrameDetectionRequest)
    (resp : FrameDetectionResponse)
    (h : detect_faces_in_frame c s d now0 req = .ok resp) :
    resp.processing_time_ms =
      round2 (d.decode_ms + d.ensure_ms + d.detect_ms + d.search_ms) := by
  unfold detect_faces_in_frame at h
  repeat' split at h
  all_goals try exact Except.noConfusion h
  injection h with h
  subst h
  show round2 (now0 + d.decode_ms + d.ensure_ms + d.detect_ms + d.search_ms - now0) = _
  congr 1
  ring

/-- Witness for C7's amended theorem at the concrete durations (5, 1, 1, 1):
the reported 8 ms equals the rounded sum of all four step durations, decode
included. -/
theorem processing_time_spans_decode_and_steps_witness :
    (8 : Rat) = round2 (5 + 1 + 1 + 1) :=
  processing_time_spans_decode_and_steps oneFaceClient settingsEx
    { decode_ms := 5, ensure_ms := 1, detect_ms := 1, search_ms := 1 } 0 reqFrameA
    { «matches» := [], faces_detected := 1, processing_time_ms := 8, event_id := some "event-1" }
    detect_frame_eval

/-! ### C8 — invalid frame payloads -/

/-- A backend that, like AWS Rekognition on bytes that are not a decodable
image, fails the detection call with the `InvalidImageFormatException`
client error. -/
def badFormatClient : RekoClient :=
  { stubClient with detect_faces := fun _ _ => .error "InvalidImageFormatException" }

/-- Counterexample to C8 as stated: `reqFrameA`'s payload base64-decodes
(to 75 bytes that are not a valid image), so decoding raises nothing; the
bytes travel to the backend, whose `InvalidImageFormatException` is wrapped
as `RekognitionError` and surfaces as the 502 gateway failure — not as the
4xx-class invalid-image client fault the claim requires for frames that do
not decode to a valid image payload. -/
theorem nonimage_payload_yields_gateway_error :
    decode_base64_image reqFrameA.image_base64 = .ok (List.replicate 75 0) ∧
    detect_faces_in_frame badFormatClient settingsEx
        { decode_ms := 1, ensure_ms := 1, detect_ms := 1, search_ms := 1 } 0 reqFrameA
      = .error (.badGateway
          "Recognition service error: Failed to detect faces: InvalidImageFormatException") := by
  decide

/-- Claim C8 (amended): the identify-frame endpoint fails with the 400
invalid-image client fault exactly when the base64 decode of the frame
raises; a payload that decodes to bytes the backend rejects as an invalid
image surfaces as the wrapped backend error, i.e. the 502 gateway failure. -/
theorem frame_payload_error_classes (c : RekoClient) (s : Settings) (d : StepDurations)
    (now0 : Rat) (req : FrameDetectionRequest) :
    (∀ e, decode_base64_image req.image_base64 = .error e →
      detect_faces_in_frame c s d now0 req =
        .error (.badRequest ("Invalid base64 image: " ++ e))) ∧
    (∀ image_bytes code, decode_base64_image req.image_base64 = .ok image_bytes →
      RekognitionService.ensure_collection_exists c s = .ok true →
      c.detect_faces image_bytes ["DEFAULT"] = .error code →
      detect_faces_in_frame c s d now0 req =
        .error (.badGateway ("Recognition service error: Failed to detect faces: " ++ code))) := by
  constructor
  · intro e he
    simp only [detect_faces_in_frame, he]
  · intro image_bytes code hdec hens hdet
    have hdetect : RekognitionService.detect_faces c image_bytes none =
        .error (.rekognitionError ("Failed to detect faces: " ++ code)) := by
      unfold RekognitionService.detect_faces
      rw [show RekognitionService.pyOrAttrs none = ["DEFAULT"] from rfl, hdet]
    simp only [detect_faces_in_frame, hdec, hens, hdetect]
    rfl

/-- A frame payload of 101 base64 characters, which Python's base64 decoder
rejects (101 data characters is 1 more than a multiple of 4). -/
def reqFrameBadB64 : FrameDetectionRequest :=
  { image_base64 := String.mk (List.replicate 101 'A')
    event_id := none
    max_faces := none
    threshold := none }

/-- Witness for C8's amended theorem: a payload whose base64 decode raises
yields the 400 client fault. -/
theorem frame_payload_error_classes_witness :
    detect_faces_in_frame stubClient settingsEx
        { decode_ms := 1, ensure_ms := 1, detect_ms := 1, search_ms := 1 } 0 reqFrameBadB64
      = .error (.badRequest "Invalid base64 image: Incorrect padding") := by
  simpa using
    (frame_payload_error_classes stubClient settingsEx
        { decode_ms := 1, ensure_ms := 1, detect_ms := 1, search_ms := 1 } 0 reqFrameBadB64).1
      "Incorrect padding" (by decide)

/-! ### C10 — one process-wide collection; event_id only echoed -/

/-- Two backends agree on a collection when every collection-scoped call
behaves identically against it. -/
def RekoClient.agreeOn (c c' : RekoClient) (cid : String) : Prop :=
  c.describe_collection cid = c'.describe_collection cid ∧
  c.create_collection cid = c'.create_collection cid ∧
  (∀ img ext, c.index_faces cid img ext = c'.index_faces cid img ext) ∧
  (∀ img mf th, c.search_faces_by_image cid img mf th = c'.search_faces_by_image cid img mf th) ∧
  (∀ n, c.list_faces cid n = c'.list_faces cid n) ∧
  (∀ ids, c.delete_faces cid ids = c'.delete_faces cid ids)

/-- Forget the echoed event id of an identify-frame outcome. -/
def scrubEvent (x : Except HTTPFailure FrameDetectionResponse) :
    Except HTTPFailure FrameDetectionResponse :=
  x.map (fun r => { r with event_id := none })

theorem ensure_collection_exists_congr (c c' : RekoClient) (s : Settings)
    (hd : c.describe_collection s.rekognition_collection_id
        = c'.describe_collection s.rekognition_collection_id)
    (hc : c.create_collection s.rekognition_collection_id
        = c'.create_collection s.rekognition_collection_id) :
    RekognitionService.ensure_collection_exists c s
      = RekognitionService.ensure_collection_exists c' s := by
  unfold RekognitionService.ensure_collection_exists
  simp only [hd, hc]

theorem search_faces_by_image_congr (c c' : RekoClient) (s : Settings)
    (hs : ∀ img mf th, c.search_faces_by_image s.rekognition_collection_id img mf th
        = c'.search_faces_by_image s.rekognition_collection_id img mf th)
    (img : List Nat) (mf : Option Int) (th : Option Rat) :
    RekognitionService.search_faces_by_image c s img mf th
      = RekognitionService.search_faces_by_image c' s img mf th := by
  unfold RekognitionService.search_faces_by_image RekognitionService.search_core
  rw [hs]

theorem detect_faces_congr (c c' : RekoClient)
    (hdet : c.detect_faces = c'.detect_faces) (img : List Nat)
    (a : Option (List String)) :
    RekognitionService.detect_faces c img a = RekognitionService.detect_faces c' img a := by
  unfold RekognitionService.detect_faces
  rw [hdet]

theorem index_face_congr (c c' : RekoClient) (s : Settings)
    (hi : ∀ img ext, c.index_faces s.rekognition_collection_id img ext
        = c'.index_faces s.rekognition_collection_id img ext)
    (uid : String) (img : List Nat) (ext : Option String) :
    RekognitionService.index_face c s uid img ext
      = RekognitionService.index_face c' s uid img ext := by
  unfold RekognitionService.index_face
  simp only [hi]

theorem delete_faces_by_user_congr (c c' : RekoClient) (s : Settings)
    (hl : ∀ n, c.list_faces s.rekognition_collection_id n
        = c'.list_faces s.rekognition_collection_id n)
    (hdl : ∀ ids, c.delete_faces s.rekognition_collection_id ids
        = c'.delete_faces s.rekognition_collection_id ids)
    (uid : String) :
    RekognitionService.delete_faces_by_user c s uid
      = RekognitionService.delete_faces_by_user c' s uid := by
  unfold RekognitionService.delete_faces_by_user
  simp only [hl, hdl]

theorem get_collection_stats_congr (c c' : RekoClient) (s : Settings)
    (hd : c.describe_collection s.rekognition_collection_id
        = c'.describe_collection s.rekognition_collection_id) :
    RekognitionService.get_collection_stats c s
      = RekognitionService.get_collection_stats c' s := by
  unfold RekognitionService.get_collection_stats
  rw [hd]

/-- Claim C10: every request-time recognition operation (identify-frame,
register-face, deregister-faces, collection-stats) acts only on the single
collection named by `settings.rekognition_collection_id`: replacing the
backend by one that agrees with it on that collection alone (and on the
collection-independent `detect_faces`) leaves every endpoint outcome
unchanged; and the `event_id` of an identify-frame request influences
nothing but the echoed `event_id` field of a successful response. -/
theorem recognition_uses_only_configured_collection
    (c c' : RekoClient) (s : Settings) (d : StepDurations) (now0 : Rat)
    (req req' : FrameDetectionRequest) (uid : String)
    (hag : RekoClient.agreeOn c c' s.rekognition_collection_id)
    (hdet : c.detect_faces = c'.detect_faces)
    (h1 : req'.image_base64 = req.image_base64)
    (h2 : req'.max_faces = req.max_faces)
    (h3 : req'.threshold = req.threshold) :
    scrubEvent (detect_faces_in_frame c s d now0 req)
      = scrubEvent (detect_faces_in_frame c' s d now0 req') ∧
    (∀ resp, detect_faces_in_frame c s d now0 req = .ok resp →
      resp.event_id = req.event_id) ∧
    index_user_face c s uid req.image_base64 = index_user_face c' s uid req.image_base64 ∧
    delete_my_faces c s uid = delete_my_faces c' s uid ∧
    collection_stats_endpoint c s = collection_stats_endpoint c' s := by
  obtain ⟨hdescribe, hcreate, hindex, hsearch, hlist, hdelete⟩ := hag
  have hens := ensure_collection_exists_congr c c' s hdescribe hcreate
  have hsearchsvc := search_faces_by_image_congr c c' s hsearch
  have hdetsvc := detect_faces_congr c c' hdet
  have hidxsvc := index_face_congr c c' s hindex
  have hdelsvc := delete_faces_by_user_congr c c' s hlist hdelete
  have hstatsvc := get_collection_stats_congr c c' s hdescribe
  refine ⟨?_, ?_, ?_, ?_, ?_⟩
  · unfold detect_faces_in_frame
    simp only [h1, h2, h3, hens, hdetsvc, hsearchsvc]
    cases hdec : decode_base64_image req.image_base64 with
    | error e => simp [scrubEvent, hdec]
    | ok image_bytes =>
      cases hen : RekognitionService.ensure_collection_exists c' s with
      | error e => simp [scrubEvent, hdec, hen]
      | ok b =>
        cases hde : RekognitionService.detect_faces c' image_bytes none with
        | error e => simp [scrubEvent, hdec, hen, hde]
        | ok detected =>
          cases hse : RekognitionService.search_faces_by_image c' s image_bytes
              req.max_faces req.threshold with
          | error e => simp [scrubEvent, hdec, hen, hde, hse]
          | ok matches_raw =>
            simp only [hdec, hen, hde, hse]
            rfl
  · intro resp h
    unfold detect_faces_in_frame at h
    repeat' split at h
    all_goals try exact Except.noConfusion h
    injection h with h
    subst h
    rfl
  · unfold index_user_face
    simp only [hens, hidxsvc]
  · unfold delete_my_faces
    rw [hdelsvc]
  · unfold collection_stats_endpoint
    rw [hstatsvc]

/-- A backend that behaves like `stubClient` on the configured collection
`test-collection` but fails every call against any other collection. -/
def altClient : RekoClient :=
  { describe_collection := fun cid =>
      if cid = "test-collection" then .ok ⟨some 0, none, none, none⟩
      else .error "AccessDeniedException"
    create_collection := fun cid =>
      if cid = "test-collection" then .ok () else .error "AccessDeniedException"
    index_faces := fun cid _ _ =>
      if cid = "test-collection" then .ok [] else .error "AccessDeniedException"
    search_faces_by_image := fun cid _ _ _ =>
      if cid = "test-collection" then .ok [] else .error "AccessDeniedException"
    detect_faces := stubClient.detect_faces
    list_faces := fun cid _ =>
      if cid = "test-collection" then .ok [] else .error "AccessDeniedException"
    delete_faces := fun cid ids =>
      if cid = "test-collection" then .ok ids else .error "AccessDeniedException" }

/-- `reqFrameA` with a different event id. -/
def reqFrameB : FrameDetectionRequest :=
  { image_base64 := String.mk (List.replicate 100 'A')
    event_id := some "event-2"
    max_faces := none
    threshold := none }

/-- Witness for C10: swapping the backend for one that differs on every
other collection, and changing the request's event id, leaves each endpoint
outcome unchanged (up to the echoed event id). -/
theorem recognition_uses_only_configured_collection_witness :
    scrubEvent (detect_faces_in_frame stubClient settingsEx
        { decode_ms := 1, ensure_ms := 1, detect_ms := 1, search_ms := 1 } 0 reqFrameA)
      = scrubEvent (detect_faces_in_frame altClient settingsEx
        { decode_ms := 1, ensure_ms := 1, detect_ms := 1, search_ms := 1 } 0 reqFrameB) ∧
    index_user_face stubClient settingsEx "user-9" reqFrameA.image_base64
      = index_user_face altClient settingsEx "user-9" reqFrameA.image_base64 ∧
    delete_my_faces stubClient settingsEx "user-9"
      = delete_my_faces altClient settingsEx "user-9" ∧
    collection_stats_endpoint stubClient settingsEx
      = collection_stats_endpoint altClient settingsEx := by
  have h := recognition_uses_only_configured_collection stubClient altClient settingsEx
    { decode_ms := 1, ensure_ms := 1, detect_ms := 1, search_ms := 1 } 0 reqFrameA reqFrameB
    "user-9"
    ⟨rfl, rfl, fun _ _ => rfl, fun _ _ _ => rfl, fun _ => rfl, fun _ => rfl⟩
    rfl rfl rfl rfl
  exact ⟨h.1, h.2.2.1, h.2.2.2.1, h.2.2.2.2⟩

/-! ### C3 — per-event failure isolation in the reconciler -/

/-- Claim C3: a reconciliation run over the selected pending events never
throws past the loop (given the configured bucket check passes): every
selected event is processed, each event's final status is decided solely by
its own processing outcome (so one event's exception marks only that event
failed and stops nothing else), `events_scanned` is the number of selected
events, the completed/failed counts count exactly the succeeding/throwing
events, and they sum to `events_scanned`. -/
theorem reconciler_isolates_event_failures (env : EventIndexer.ReconcilerEnv)
    (events : List String)
    (hb : EventIndexer.pyFalsyStr env.s3_bucket_name = false) :
    EventIndexer.run env events = .ok (EventIndexer.runFold env events) ∧
    (EventIndexer.runFold env events).events_scanned = events.length ∧
    (EventIndexer.runFold env events).events_completed
      = events.countP (fun e => (EventIndexer.processOne env e).1) ∧
    (EventIndexer.runFold env events).events_failed
      = events.countP (fun e => ! (EventIndexer.processOne env e).1) ∧
    (EventIndexer.runFold env events).events_completed
        + (EventIndexer.runFold env events).events_failed = events.length ∧
    ∀ e ∈ events, EventIndexer.finalStatus (EventIndexer.runFold env events) e
      = some (if (EventIndexer.processOne env e).1
          then EventStatus.completed else EventStatus.failed) := by
  have hscan := EventIndexer.foldl_runStep_events_scanned env events
  have hcomp := EventIndexer.foldl_runStep_events_completed env events
  have hfail := EventIndexer.foldl_runStep_events_failed env events
  have hwrites := EventIndexer.foldl_runStep_status_writes env events
  refine ⟨?_, ?_, ?_, ?_, ?_, ?_⟩
  · unfold EventIndexer.run
    rw [hb]
    rfl
  · exact hscan _
  · rw [EventIndexer.runFold, hcomp]
    simp
  · rw [EventIndexer.runFold, hfail]
    simp
  · rw [EventIndexer.runFold, hcomp, hfail]
    simpa using EventIndexer.countP_total events (fun e => (EventIndexer.processOne env e).1)
  · intro e he
    unfold EventIndexer.finalStatus
    rw [EventIndexer.runFold, hwrites]
    rw [show (⟨events.length, 0, 0, [], []⟩ : EventIndexer.RunResult).status_writes = []
      from rfl]
    rw [List.nil_append, EventIndexer.finalStatus_writesOf env events e he]
    rfl

/-- Scenario D's environment: three pending events, everything healthy
except that `ensure_collection` throws for the collection of event `e2`. -/
def envScenarioD : EventIndexer.ReconcilerEnv :=
  { s3_bucket_name := some "memento-bucket"
    get_event_recognition_users := fun _ => .ok []
    get_profile_by_user_id := fun _ => .ok none
    ensure_collection := fun cid =>
      if cid = "memento_event_e2" then .error "boom" else .ok ()
    index_face_from_s3 := fun _ _ _ _ => .ok () }

/-- Witness for C3 (Scenario D): three scanned events with one throwing
during `ensure_collection` yield `events_scanned=3, events_completed=2,
events_failed=1`, and only the throwing event ends up failed. -/
theorem reconciler_isolates_event_failures_witness :
    EventIndexer.run envScenarioD ["e1", "e2", "e3"]
      = .ok (EventIndexer.runFold envScenarioD ["e1", "e2", "e3"]) ∧
    (EventIndexer.runFold envScenarioD ["e1", "e2", "e3"]).events_scanned = 3 ∧
    (EventIndexer.runFold envScenarioD ["e1", "e2", "e3"]).events_completed = 2 ∧
    (EventIndexer.runFold envScenarioD ["e1", "e2", "e3"]).events_failed = 1 ∧
    EventIndexer.finalStatus (EventIndexer.runFold envScenarioD ["e1", "e2", "e3"]) "e2"
      = some EventStatus.failed ∧
    EventIndexer.finalStatus (EventIndexer.runFold envScenarioD ["e1", "e2", "e3"]) "e1"
      = some EventStatus.completed := by
  have h := reconciler_isolates_event_failures envScenarioD ["e1", "e2", "e3"] (by decide)
  exact ⟨h.1, by decide, by decide, by decide, by decide, by decide⟩

/-! ### C1 — consent gating of reconciler indexing -/

/-- Claim C1: for every reconciliation run and every selected event that the
run marks completed, every face the run indexed into that event's collection
belongs to a user returned by the event's `allow_recognition = true` consent
query whose profile read succeeded with a truthy (hence non-null)
`photo_path`; and consenting users with a missing profile or missing photo
are merely skipped — when the setup calls succeed and every per-user step is
ok (skips included), the event still ends completed. -/
theorem reconciler_consent_gating (env : EventIndexer.ReconcilerEnv)
    (events : List String) (event_id : String) (hmem : event_id ∈ events) :
    (EventIndexer.finalStatus (EventIndexer.runFold env events) event_id
        = some EventStatus.completed →
      ∀ user_id, (EventIndexer.collection_id_for event_id, user_id)
          ∈ (EventIndexer.runFold env events).indexed →
        ∃ users, env.get_event_recognition_users event_id = .ok users ∧ user_id ∈ users ∧
          ∃ profile s, env.get_profile_by_user_id user_id = .ok (some profile) ∧
            profile.photo_path = some s ∧ s ≠ "") ∧
    (∀ users, env.ensure_collection (EventIndexer.collection_id_for event_id) = .ok () →
      env.get_event_recognition_users event_id = .ok users →
      (∀ u ∈ users, EventIndexer.userStepOk env
          (EventIndexer.collection_id_for event_id) u = true) →
      EventIndexer.finalStatus (EventIndexer.runFold env events) event_id
        = some EventStatus.completed) := by
  constructor
  · intro _ user_id huser
    have hindexed : (EventIndexer.runFold env events).indexed
        = EventIndexer.indexedOf env events := by
      rw [EventIndexer.runFold, EventIndexer.foldl_runStep_indexed]
      rfl
    rw [hindexed] at huser
    obtain ⟨e', he', hpe⟩ := EventIndexer.indexedOf_mem env events _ huser
    obtain ⟨h1, users, hu, h2, profile, s, h3, h4, h5⟩ :=
      EventIndexer.processOne_indexed env e' _ hpe
    have hee : event_id = e' := EventIndexer.collection_id_for_inj h1
    subst hee
    exact ⟨users, hu, h2, profile, s, h3, h4, h5⟩
  · intro users hens hu hok
    have houtcome := EventIndexer.processOne_completes env event_id users hens hu hok
    unfold EventIndexer.finalStatus
    rw [EventIndexer.runFold, EventIndexer.foldl_runStep_status_writes]
    rw [show (⟨events.length, 0, 0, [], []⟩ : EventIndexer.RunResult).status_writes = []
      from rfl]
    rw [List.nil_append, EventIndexer.finalStatus_writesOf env events event_id hmem,
      houtcome]
    rfl

/-- An environment with one event `e1` having two consenting users: `u1`
with a profile photo, `u2` with no profile at all. -/
def envConsentGate : EventIndexer.ReconcilerEnv :=
  { s3_bucket_name := some "memento-bucket"
    get_event_recognition_users := fun e => if e = "e1" then .ok ["u1", "u2"] else .ok []
    get_profile_by_user_id := fun u =>
      if u = "u1" then .ok (some { photo_path := some "photos/u1.jpg" }) else .ok none
    ensure_collection := fun _ => .ok ()
    index_face_from_s3 := fun _ _ _ _ => .ok () }

/-- Witness for C1: the run completes event `e1` despite skipping the
profile-less consenting user `u2`; the indexed user `u1` is gated by the
consent query and a truthy photo path, and `u2` is not indexed. -/
theorem reconciler_consent_gating_witness :
    (∃ users, envConsentGate.get_event_recognition_users "e1" = .ok users ∧
      "u1" ∈ users ∧
      ∃ profile s, envConsentGate.get_profile_by_user_id "u1" = .ok (some profile) ∧
        profile.photo_path = some s ∧ s ≠ "") ∧
    EventIndexer.finalStatus (EventIndexer.runFold envConsentGate ["e1"]) "e1"
      = some EventStatus.completed ∧
    (EventIndexer.collection_id_for "e1", "u1")
      ∈ (EventIndexer.runFold envConsentGate ["e1"]).indexed ∧
    (EventIndexer.collection_id_for "e1", "u2")
      ∉ (EventIndexer.runFold envConsentGate ["e1"]).indexed := by
  have h := reconciler_consent_gating envConsentGate ["e1"] "e1" (by decide)
  refine ⟨?_, ?_, by decide, by decide⟩
  · exact h.1 (by decide) "u1" (by decide)
  · exact h.2 ["u1", "u2"] rfl (by decide) (by decide)

end Memento
